import Mathlib

/-!
# Verification of the `/v1/BETA/media/download` handler

A shallow embedding of `routes/v1/media/download.py` (`download_media`).
Python dictionaries with optional keys become structures of `Option` fields;
Python truthiness is made explicit (`none` and `some ""`/`some []`/`some 0`
are falsy); exceptions become `Except String` values carrying `str(e)`; the
external world (yt-dlp invocations, the filesystem listing after each attempt,
the cloud-storage uploader, the thumbnail downloader) is a record of oracles
`Env` that the handler consumes, so the handler itself is a pure function.
-/

namespace MediaDownload

/-- `listStartsWith s p` : `p` is a prefix of `s` (on character lists). -/
def listStartsWith : List Char → List Char → Bool
  | _, [] => true
  | [], _ :: _ => false
  | a :: as, b :: bs => a == b && listStartsWith as bs

/-- `occurs s p` : `p` occurs as a contiguous run inside `s`. -/
def occurs : List Char → List Char → Bool
  | [], p => p.isEmpty
  | s@(_ :: rest), p => listStartsWith s p || occurs rest p

/-- Python `pat in s`. -/
def strContains (s pat : String) : Bool := occurs s.data pat.data

/-- Left-to-right non-overlapping replacement on character lists; the fuel is
at least the length of `s`, and each step consumes at least one character. -/
def replaceFuel : Nat → List Char → List Char → List Char → List Char
  | 0, s, _, _ => s
  | _ + 1, [], _, _ => []
  | n + 1, s@(c :: rest), pat, rep =>
    if !pat.isEmpty && listStartsWith s pat then
      rep ++ replaceFuel n (s.drop pat.length) pat rep
    else c :: replaceFuel n rest pat rep

/-- Python `s.replace(pat, rep)`: left-to-right, non-overlapping. -/
def replaceAll (s pat rep : String) : String :=
  String.mk (replaceFuel s.data.length s.data pat.data rep.data)

/-- Python `s.endswith(suffix)`. -/
def strEndsWith (s suffix : String) : Bool :=
  listStartsWith s.data.reverse suffix.data.reverse

/-- Python `s.lower()` (ASCII is all the handler compares). -/
def strToLower (s : String) : String := String.mk (s.data.map Char.toLower)

/-- Truthiness of a possibly-missing Python string (missing key or `""` is falsy). -/
def strTruthy : Option String → Bool
  | some s => s != ""
  | none => false

/-- Truthiness of a possibly-missing Python list (missing key or `[]` is falsy). -/
def listTruthy {α : Type} : Option (List α) → Bool
  | some l => !l.isEmpty
  | none => false

/-- Truthiness of a possibly-missing Python integer (missing key or `0` is falsy). -/
def natTruthy : Option Nat → Bool
  | some n => n != 0
  | none => false

/-- Truthiness of a possibly-missing Python boolean. -/
def boolTruthy : Option Bool → Bool
  | some b => b
  | none => false

/-- Python `f"{x}"` for a value that may be `None`. -/
def pyStr : Option String → String
  | some s => s
  | none => "None"

/-! ## Request payload (the JSON body, after schema validation) -/

/-- The `format` object of the request body. -/
structure FormatOpts where
  quality : Option String := none
  format_id : Option String := none
  resolution : Option String := none
  video_codec : Option String := none
  audio_codec : Option String := none
deriving Repr, DecidableEq

/-- Python truthiness of the `format` dict: non-empty, i.e. some key present. -/
def FormatOpts.isTruthy (f : FormatOpts) : Bool :=
  f.quality.isSome || f.format_id.isSome || f.resolution.isSome ||
    f.video_codec.isSome || f.audio_codec.isSome

/-- The `audio` object of the request body. -/
structure AudioOpts where
  extract : Option Bool := none
  format : Option String := none
  quality : Option String := none
deriving Repr, DecidableEq

def AudioOpts.isTruthy (a : AudioOpts) : Bool :=
  a.extract.isSome || a.format.isSome || a.quality.isSome

/-- The `thumbnails` object of the request body. -/
structure ThumbOpts where
  download : Option Bool := none
  download_all : Option Bool := none
  formats : Option (List String) := none
  convert : Option Bool := none
  embed_in_audio : Option Bool := none
deriving Repr, DecidableEq

def ThumbOpts.isTruthy (t : ThumbOpts) : Bool :=
  t.download.isSome || t.download_all.isSome || t.formats.isSome ||
    t.convert.isSome || t.embed_in_audio.isSome

/-- The `subtitles` object of the request body. -/
structure SubOpts where
  download : Option Bool := none
  languages : Option (List String) := none
  formats : Option (List String) := none
deriving Repr, DecidableEq

def SubOpts.isTruthy (s : SubOpts) : Bool :=
  s.download.isSome || s.languages.isSome || s.formats.isSome

/-- The `download` (limits) object of the request body. -/
structure DlOpts where
  max_filesize : Option Nat := none
  rate_limit : Option String := none
  retries : Option Nat := none
deriving Repr, DecidableEq

def DlOpts.isTruthy (d : DlOpts) : Bool :=
  d.max_filesize.isSome || d.rate_limit.isSome || d.retries.isSome

/-- The validated request payload (`data`).  `data.get('format', {})` etc.
become `Option` structures; an absent key and an empty dict are both falsy. -/
structure Request where
  media_url : String
  id : Option String := none
  format : Option FormatOpts := none
  audio : Option AudioOpts := none
  thumbnails : Option ThumbOpts := none
  subtitles : Option SubOpts := none
  download : Option DlOpts := none
deriving Repr, DecidableEq

/-- Truthiness of `format_options` (line 78 / comparisons `if format_options:`). -/
def fmtTruthy (r : Request) : Bool :=
  match r.format with
  | some f => f.isTruthy
  | none => false

def audioTruthy (r : Request) : Bool :=
  match r.audio with
  | some a => a.isTruthy
  | none => false

def thumbsTruthy (r : Request) : Bool :=
  match r.thumbnails with
  | some t => t.isTruthy
  | none => false

def subsTruthy (r : Request) : Bool :=
  match r.subtitles with
  | some s => s.isTruthy
  | none => false

def dlTruthy (r : Request) : Bool :=
  match r.download with
  | some d => d.isTruthy
  | none => false

/-- `audio_options and audio_options.get('extract')` (lines 123, 195, 258...). -/
def audioExtract (r : Request) : Bool :=
  audioTruthy r && boolTruthy ((r.audio.getD {}).extract)

/-- `audio_options.get('format', 'mp3')`. -/
def reqAudioFormat (r : Request) : String := (r.audio.getD {}).format.getD "mp3"

/-- `audio_options.get('quality', '192')`. -/
def reqAudioQuality (r : Request) : String := (r.audio.getD {}).quality.getD "192"

/-- `thumbnail_options.get('download', False)` (lines 102, 722). -/
def thumbDownload (r : Request) : Bool := boolTruthy ((r.thumbnails.getD {}).download)

/-! ## The yt-dlp option dictionary -/

/-- A postprocessor entry in `ydl_opts['postprocessors']`. -/
inductive Postproc
  /-- `FFmpegExtractAudio` with `preferredcodec`, `preferredquality` and an
  optional `nopostoverwrites` key (present at lines 132 and 207, absent at 307). -/
  | extractAudio (codec : String) (quality : String) (nopostoverwrites : Option Bool)
  /-- `FFmpegMerger` (line 265). -/
  | merger
deriving Repr, DecidableEq

def Postproc.isExtractAudio : Postproc → Bool
  | .extractAudio _ _ _ => true
  | .merger => false

/-- The mutable `ydl_opts` dictionary.  Keys the handler may or may not write
are `Option`-valued (`none` = key absent); keys set unconditionally in the
initial literal (lines 93-116) are plain values. -/
structure YdlOpts where
  format : String
  outtmpl : String
  merge_output_format : String
  quiet : Bool
  no_warnings : Bool
  verbose : Bool
  progress : Bool
  prefer_ffmpeg : Bool
  writethumbnail : Bool
  writeinfojson : Bool
  nocheckcertificate : Bool
  ignoreerrors : Bool
  logtostderr : Bool
  external_downloader_args : List String
  format_sort : List String
  listformats : Bool
  retries : Option Nat := none
  postprocessors : Option (List Postproc) := none
  keepvideo : Option Bool := none
  writesubtitles : Option Bool := none
  writeallsubtitles : Option Bool := none
  subtitleslangs : Option (List String) := none
  subtitlesformat : Option (List String) := none
  convert_thumbnails : Option Bool := none
  embed_thumbnail_in_audio : Option Bool := none
  max_filesize : Option Nat := none
  limit_rate : Option String := none
deriving Repr, DecidableEq

/-- The temporary working directory (`temp_dir`), abstracted to a fixed path. -/
def tempDir : String := "/tmp/workdir"

/-- `'youtube.com' in media_url or 'youtu.be' in media_url` (lines 90, 215). -/
def is_youtube (url : String) : Bool :=
  strContains url "youtube.com" || strContains url "youtu.be"

/-- The hard-coded previously-problematic URL (line 270). -/
def problematicUrl : String := "https://www.youtube.com/watch?v=yPxavsb2rgk"

/-- Lines 93-116: the initial `ydl_opts` literal. -/
def initOpts (r : Request) : YdlOpts where
  format := "bestvideo+bestaudio/best"
  outtmpl := tempDir ++ "/%(id)s.%(ext)s"
  merge_output_format := "mp4"
  quiet := false
  no_warnings := false
  verbose := true
  progress := false
  prefer_ffmpeg := true
  writethumbnail := thumbDownload r
  writeinfojson := true
  nocheckcertificate := true
  ignoreerrors := false
  logtostderr := true
  external_downloader_args := ["--max-retries", "10"]
  format_sort := ["res:1080", "fps:30", "codec:h264"]
  listformats := true

/-- Lines 119-137: the YouTube audio-only fast path. -/
def youtubeAudioStep (r : Request) (o : YdlOpts) : YdlOpts :=
  if is_youtube r.media_url then
    if audioExtract r && !fmtTruthy r then
      let audio_format := reqAudioFormat r
      let pps := o.postprocessors.getD []
      { o with
        format := "bestaudio/best"
        postprocessors := some (pps ++
          [.extractAudio audio_format (reqAudioQuality r) (some false)]) }
    else o
  else o

/-- Lines 140-143: `if download_options and 'retries' in download_options`. -/
def retriesEarlyStep (r : Request) (o : YdlOpts) : YdlOpts :=
  if dlTruthy r then
    match (r.download.getD {}).retries with
    | some n => { o with retries := some n }
    | none => o
  else o

/-- Lines 150-192: apply the `format` object.  A truthy raw `quality` is used
directly, except that for YouTube a `bestvideo` selector with no height/res
constraint is rewritten to `bestvideo[height>=720]`; otherwise the structured
fields present are joined with `+`. -/
def formatStep (r : Request) (o : YdlOpts) : YdlOpts :=
  if fmtTruthy r then
    let fo := r.format.getD {}
    if strTruthy fo.quality then
      let user_format := fo.quality.getD ""
      if is_youtube r.media_url then
        if strContains user_format "bestvideo" then
          let enhanced_format := user_format
          let enhanced_format :=
            if !strContains enhanced_format "height" && !strContains enhanced_format "res" then
              replaceAll enhanced_format "bestvideo" "bestvideo[height>=720]"
            else enhanced_format
          { o with format := enhanced_format }
        else { o with format := user_format }
      else { o with format := user_format }
    else
      let format_str : List String :=
        (match fo.format_id with | some s => if s != "" then [s] else [] | none => []) ++
        (match fo.resolution with | some s => if s != "" then [s] else [] | none => []) ++
        (match fo.video_codec with | some s => if s != "" then [s] else [] | none => []) ++
        (match fo.audio_codec with | some s => if s != "" then [s] else [] | none => [])
      if !format_str.isEmpty then
        { o with format := String.intercalate "+" format_str }
      else o
  else o

/-- Lines 195-225: audio extraction setup.  Appends an `FFmpegExtractAudio`
postprocessor, for YouTube with no `format` object switches the selector to
`bestaudio/best`, and sets `keepvideo`. -/
def audioStep (r : Request) (o : YdlOpts) : YdlOpts :=
  if audioExtract r then
    let audio_format := reqAudioFormat r
    let audio_quality := reqAudioQuality r
    let pps := o.postprocessors.getD []
    let o :=
      if is_youtube r.media_url && !fmtTruthy r then
        { o with format := "bestaudio/best" }
      else o
    { o with
      postprocessors := some (pps ++ [.extractAudio audio_format audio_quality (some false)])
      keepvideo := some true }
  else o

/-- Lines 228-234: thumbnail options.  Note the source writes the *subtitle*
option keys from the thumbnail fields. -/
def thumbStep (r : Request) (o : YdlOpts) : YdlOpts :=
  if thumbsTruthy r then
    let t := r.thumbnails.getD {}
    let o := { o with
      writesubtitles := some (t.download.getD false)
      writeallsubtitles := some (t.download_all.getD false) }
    let o :=
      if listTruthy t.formats then { o with subtitleslangs := t.formats } else o
    { o with
      convert_thumbnails := some (t.convert.getD false)
      embed_thumbnail_in_audio := some (t.embed_in_audio.getD false) }
  else o

/-- Lines 237-242: subtitle options. -/
def subStep (r : Request) (o : YdlOpts) : YdlOpts :=
  if subsTruthy r then
    let s := r.subtitles.getD {}
    let o := { o with writesubtitles := some (s.download.getD false) }
    let o :=
      if listTruthy s.languages then { o with subtitleslangs := s.languages } else o
    if listTruthy s.formats then { o with subtitlesformat := s.formats } else o
  else o

/-- Lines 245-251: download limits (each written only when truthy). -/
def dlStep (r : Request) (o : YdlOpts) : YdlOpts :=
  if dlTruthy r then
    let d := r.download.getD {}
    let o := if natTruthy d.max_filesize then { o with max_filesize := d.max_filesize } else o
    let o := if strTruthy d.rate_limit then { o with limit_rate := d.rate_limit } else o
    if natTruthy d.retries then { o with retries := d.retries } else o
  else o

/-- Lines 253-267: ensure `postprocessors` exists, then append `FFmpegMerger`
unless the YouTube audio-only fast path applies or audio is extracted without
`keepvideo`. -/
def mergerStep (r : Request) (o : YdlOpts) : YdlOpts :=
  let o := { o with postprocessors := some (o.postprocessors.getD []) }
  if !(is_youtube r.media_url && audioExtract r && !fmtTruthy r) then
    if !(audioExtract r && !boolTruthy o.keepvideo) then
      { o with postprocessors := some (o.postprocessors.getD [] ++ [.merger]) }
    else o
  else o

/-- Lines 270-311: the hard-coded handling for the one known-problematic URL:
force the selector `137+140/best` and, when audio extraction is requested and
no `FFmpegExtractAudio` postprocessor is present yet, append one (without a
`nopostoverwrites` key).  The `except` arm at line 288 is unreachable (the
`try` body only assigns) and is not modelled. -/
def specialUrlStep (r : Request) (o : YdlOpts) : YdlOpts :=
  if r.media_url == problematicUrl then
    let o := { o with format := "137+140/best" }
    if audioExtract r then
      let pps := o.postprocessors.getD []
      if pps.any Postproc.isExtractAudio then o
      else
        { o with postprocessors := some (pps ++
            [.extractAudio (reqAudioFormat r) (reqAudioQuality r) none]) }
    else o
  else o

/-! ## The pre-download probe (lines 316-373) -/

/-- One entry of `info_dict['formats']`. -/
structure FmtEntry where
  format_id : Option String := none
  ext : Option String := none
  resolution : Option String := none
  height : Option Nat := none
  fps : Option Nat := none
  vcodec : Option String := none
  acodec : Option String := none
  tbr : Option Nat := none
deriving Repr, DecidableEq

/-- The metadata-only probe result (`info_dict`); `formats` is `none` when the
key is absent. -/
structure ProbeInfo where
  formats : Option (List FmtEntry) := none
deriving Repr, DecidableEq

/-- Lines 336-358: scan the probed formats for the highest-resolution video
format and the highest-bitrate audio format.  `None` heights/bitrates count as
`0`; an absent `vcodec`/`acodec` is not the string `'none'` and so counts. -/
def bestFormats (fmts : List FmtEntry) : Option String × Nat × Option String × Nat :=
  fmts.foldl
    (fun acc fmt =>
      let (bv, bh, ba, bb) := acc
      let height := fmt.height.getD 0
      let (bv, bh) :=
        if fmt.vcodec != some "none" && height > bh then (fmt.format_id, height) else (bv, bh)
      let tbr := fmt.tbr.getD 0
      let (ba, bb) :=
        if fmt.acodec != some "none" && tbr > bb then (fmt.format_id, tbr) else (ba, bb)
      (bv, bh, ba, bb))
    (none, 0, none, 0)

/-- Line 361 without the quality test: the probe yields usable (truthy) best
video and audio format ids. -/
def probeBest (probe : Option ProbeInfo) : Option (String × String) :=
  match probe with
  | none => none
  | some pi =>
    match pi.formats with
    | none => none
    | some fmts =>
      let (bv, _, ba, _) := bestFormats fmts
      if strTruthy bv && strTruthy ba then some (bv.getD "", ba.getD "") else none

/-- Lines 316-373: when the probe reports formats, a truthy best video+audio
pair was found, the `format` object is truthy, and the requested raw `quality`
contains `'best'`, override the selector with the specific format ids.
The `try` body (lines 362-369) only formats strings, so its `except` arm
(line 370) is unreachable and not modelled. -/
def probeStep (r : Request) (probe : Option ProbeInfo) (o : YdlOpts) : YdlOpts :=
  match probeBest probe with
  | none => o
  | some (bv, ba) =>
    if fmtTruthy r && strContains ((r.format.getD {}).quality.getD "") "best" then
      { o with format := bv ++ "+" ++ ba ++ "/best" }
    else o

/-- Lines 93-373: the full resolution of `ydl_opts` from the request and the
probe, applied in source order. -/
def resolveOpts (r : Request) (probe : Option ProbeInfo) : YdlOpts :=
  probeStep r probe
    (specialUrlStep r
      (mergerStep r
        (dlStep r
          (subStep r
            (thumbStep r
              (audioStep r
                (formatStep r
                  (retriesEarlyStep r
                    (youtubeAudioStep r (initOpts r))))))))))

/-! ## Filesystem model

`os.listdir(temp_dir)` is a list of entries; a path is `temp_dir` joined with
an entry name.  The working directory is exclusively owned by the job (spec
section 5), so the listing changes only through the handler's own deletions
and the recovery download. -/

/-- One entry of the working directory. -/
structure FileRec where
  name : String
  size : Nat
  isFile : Bool
deriving Repr, DecidableEq

/-- `os.path.join(temp_dir, name)`. -/
def fsPath (f : FileRec) : String := tempDir ++ "/" ++ f.name

def fsFind (fs : List FileRec) (path : String) : Option FileRec :=
  fs.find? (fun e => fsPath e == path)

/-- `os.path.exists(path)`. -/
def fsExists (fs : List FileRec) (path : String) : Bool := (fsFind fs path).isSome

/-- `os.path.getsize(path)` (0 when absent; the handler only calls it on
paths it has checked). -/
def fsSize (fs : List FileRec) (path : String) : Nat :=
  match fsFind fs path with
  | some e => e.size
  | none => 0

/-- `os.remove(path)`. -/
def fsRemove (fs : List FileRec) (path : String) : List FileRec :=
  fs.filter (fun e => fsPath e != path)

/-! ## Engine metadata -/

/-- One entry of `info.get('thumbnails')`. -/
structure ThumbInfo where
  id : Option String := none
  url : Option String := none
  width : Option Nat := none
  height : Option Nat := none
  ext : Option String := none
  converted : Option Bool := none
deriving Repr, DecidableEq

/-- The `info` dictionary returned by `extract_info` (keys the handler
reads). -/
structure MediaInfo where
  id : Option String := none
  title : Option String := none
  ext : Option String := none
  format_id : Option String := none
  resolution : Option String := none
  filesize : Option Nat := none
  width : Option Nat := none
  height : Option Nat := none
  fps : Option Nat := none
  vcodec : Option String := none
  acodec : Option String := none
  tbr : Option Nat := none
  vbr : Option Nat := none
  abr : Option Nat := none
  upload_date : Option String := none
  duration : Option Nat := none
  view_count : Option Nat := none
  uploader : Option String := none
  uploader_id : Option String := none
  description : Option String := none
  thumbnails : Option (List ThumbInfo) := none
deriving Repr, DecidableEq

/-- Lines 481-486: the minimal info dictionary synthesized when `info` is
falsy after the fallback chain. -/
def synthInfo : MediaInfo :=
  { id := some "unknown", title := some "Unknown Title",
    ext := some "mp4", format_id := some "unknown" }

/-! ## The response record (lines 681-744) -/

/-- The `media` block of the response (lines 682-706). -/
structure MediaBlock where
  media_url : String
  title : String
  format_id : String
  ext : String
  resolution : String
  filesize : Nat
  width : Nat
  height : Nat
  fps : Nat
  video_codec : String
  audio_codec : String
  tbr : Nat
  vbr : Nat
  abr : Nat
  upload_date : String
  duration : Nat
  view_count : Nat
  uploader : String
  uploader_id : String
  description : String
  requested_format : Option String
  actual_format : String
  download_timestamp : Nat
deriving Repr, DecidableEq

/-- The `audio` block of the response (lines 715-719). -/
structure AudioBlock where
  audio_url : String
  format : String
  quality : String
deriving Repr, DecidableEq

/-- One appended thumbnail record (lines 734-741). -/
structure ThumbRec where
  id : String
  image_url : String
  width : Option Nat
  height : Option Nat
  original_format : Option String
  converted : Bool
deriving Repr, DecidableEq

/-- The full success response: `media` always present, `audio` present only
when an audio url was obtained, `thumbnails` present (possibly empty) exactly
when the loop was entered. -/
structure ResponseRec where
  media : MediaBlock
  audio : Option AudioBlock
  thumbnails : Option (List ThumbRec)
deriving Repr, DecidableEq

/-! ## The environment: outcomes of all external calls -/

/-- Everything the outside world decides: each yt-dlp invocation either
raises (`.error` with `str(e)`) or returns its info dictionary (possibly a
falsy `None`, i.e. `Except.ok none`); the directory listing observed after
each attempt; the exit status of the tier-3 subprocess; the `curl` recovery
outcome; the uploader's per-call outcome (indexed by path and by how many
upload calls that path has already received); the thumbnail downloader; and
the wall clock. -/
structure Env where
  probe : Except String (Option ProbeInfo)
  tier1 : Except String (Option MediaInfo)
  filesAfter1 : List FileRec
  tier2 : Except String (Option MediaInfo)
  filesAfter2 : List FileRec
  tier3Exit : Nat
  tier3Stderr : String
  filesAfter3 : List FileRec
  tier3Info : Except String (Option MediaInfo)
  curlOutcome : Except String Nat
  uploadOutcome : String → Nat → Except String String
  thumbFetch : String → Except String FileRec
  now : Nat

/-! ## Tier machine (lines 377-464) -/

/-- The three extraction strategies: the structured call with the resolved
options, the in-try minimal-options fallback, and the direct subprocess. -/
inductive Tier
  | one
  | two
  | three
deriving Repr, DecidableEq

/-- Outcome of lines 380-464. -/
inductive DlOutcome
  /-- The guarded `try` block (lines 380-420) completed without raising: the
  `except` block is skipped and control falls off the end of the handler. -/
  | fellThrough
  /-- An exception was caught at line 421 and the tier-3 inner `try`
  (lines 425-461) completed: proceed to lines 466-746 with the info returned
  by the metadata re-probe and the directory listing. -/
  | proceed (info : Option MediaInfo) (files : List FileRec)
  /-- The tier-3 inner `try` also raised: line 464 re-raises to the outer
  handler. -/
  | raised (msg : String)
deriving Repr, DecidableEq

/-- Lines 380-420: the guarded `try` block.  Tier 1 always runs; its raised
exception (or the explicit `ValueError` on a falsy info) skips the in-try
fallback entirely.  Tier 2 runs only when tier 1 returned a truthy info and
the directory was empty.  Returns the tiers run and `some str(e)` when the
block raised. -/
def tryPhase (env : Env) : List Tier × Option String :=
  match env.tier1 with
  | .error e => ([Tier.one], some e)
  | .ok info =>
    if info.isNone then
      ([Tier.one], some "No information returned from yt-dlp")
    else if env.filesAfter1.isEmpty then
      match env.tier2 with
      | .error e => ([Tier.one, Tier.two], some e)
      | .ok _ =>
        if env.filesAfter2.isEmpty then
          ([Tier.one, Tier.two],
            some ("No files downloaded to " ++ tempDir ++ " after fallback attempt"))
        else ([Tier.one, Tier.two], none)
    else ([Tier.one], none)

/-- Lines 424-464: the tier-3 subprocess inside the `except` block: run the
command, check the exit code and the listing, re-probe the metadata; any
failure becomes the line 464 `RuntimeError` combining both error strings. -/
def tier3Run (env : Env) (pre : List Tier) (download_error : String) : List Tier × DlOutcome :=
  if env.tier3Exit != 0 then
    (pre ++ [Tier.three], .raised ("All download attempts failed. Initial error: " ++
      download_error ++ ". Final error: Direct download command failed: " ++ env.tier3Stderr))
  else if env.filesAfter3.isEmpty then
    (pre ++ [Tier.three], .raised ("All download attempts failed. Initial error: " ++
      download_error ++ ". Final error: No files in " ++ tempDir ++
      " after direct download attempt"))
  else
    match env.tier3Info with
    | .error e => (pre ++ [Tier.three], .raised ("All download attempts failed. Initial error: " ++
        download_error ++ ". Final error: " ++ e))
    | .ok info3 => (pre ++ [Tier.three], .proceed info3 env.filesAfter3)

/-- Lines 380-464: the tier machine.  Returns the list of tiers that ran, in
order, along with the outcome.  Tier 2 runs only when tier 1 returns with a
truthy info but an empty directory; any exception inside the `try` goes
straight to tier 3. -/
def runDownloadTiers (env : Env) : List Tier × DlOutcome :=
  match tryPhase env with
  | (tr, none) => (tr, .fellThrough)
  | (tr, some download_error) => tier3Run env tr download_error

/-! ## File selection (lines 473-534) -/

/-- Line 491. -/
def commonVideoExts : List String := ["mp4", "webm", "mkv", "avi", "mov", "flv"]

/-- Lines 489-497: look for `video_id.ext` with a known video extension,
existing and non-empty. -/
def findByIdExt (fs : List FileRec) (vid : String) : Option String :=
  commonVideoExts.findSome? (fun ext =>
    let candidate := tempDir ++ "/" ++ vid ++ "." ++ ext
    if fsExists fs candidate && fsSize fs candidate > 0 then some candidate else none)

/-- Lines 500-508: first listed file containing the video id, skipping
metadata sidecars. -/
def findByIdSub (fs : List FileRec) (vid : String) : Option String :=
  fs.findSome? (fun e =>
    if strContains e.name vid && e.isFile then
      if strEndsWith e.name ".info.json" || strEndsWith e.name ".description" then none
      else some (fsPath e)
    else none)

/-- Line 512. -/
def mediaExtensions : List String :=
  [".mp4", ".mkv", ".webm", ".avi", ".mov", ".flv", ".mp3", ".m4a", ".wav"]

/-- Lines 511-521: any media-extension file, skipping partials. -/
def findAnyMedia (fs : List FileRec) : Option String :=
  fs.findSome? (fun e =>
    if e.isFile && mediaExtensions.any (fun ext => strEndsWith (strToLower e.name) ext) then
      if strEndsWith e.name ".temp.mp4" || strContains e.name ".part" then none
      else some (fsPath e)
    else none)

/-- Lines 524-530: any non-empty file. -/
def findAnyNonZero (fs : List FileRec) : Option String :=
  fs.findSome? (fun e => if e.isFile && e.size > 0 then some (fsPath e) else none)

/-- Lines 488-534: the four-step selection of the main media file. -/
def selectFile (fs : List FileRec) (video_id : Option String) : Option String :=
  let f1 := if strTruthy video_id then findByIdExt fs (video_id.getD "") else none
  let f2 := match f1 with
    | some f => some f
    | none => if strTruthy video_id then findByIdSub fs (video_id.getD "") else none
  let f3 := match f2 with
    | some f => some f
    | none => findAnyMedia fs
  match f3 with
  | some f => some f
  | none => findAnyNonZero fs

/-- Python `os.path.basename`. -/
def basenameAux : List Char → List Char → List Char
  | [], acc => acc.reverse
  | c :: rest, acc => if c == '/' then basenameAux rest [] else basenameAux rest (c :: acc)

def basenameOf (p : String) : String := String.mk (basenameAux p.data [])

/-- The root part of Python `os.path.splitext` on a basename: strip the last
dot-extension, where leading dots never start an extension. -/
def splitextRoot (n : String) : String :=
  let lead := n.data.takeWhile (fun c => c == '.')
  let rest := n.data.drop lead.length
  if rest.any (fun c => c == '.') then
    let extLen := (rest.reverse.takeWhile (fun c => c != '.')).length
    String.mk (n.data.take (n.data.length - (extLen + 1)))
  else n

/-! ## Upload events -/

/-- Which artifact an upload call was issued for. -/
inductive Role
  | video
  | audio
  | thumb
deriving Repr, DecidableEq

/-- Observable storage-side effects: an upload call (with its outcome) and a
local-file deletion. -/
inductive Ev
  | up (role : Role) (path : String) (ok : Bool)
  | del (path : String)
deriving Repr, DecidableEq

/-- How many upload calls a path has already received in an event list. -/
def upCount (evs : List Ev) (p : String) : Nat :=
  (evs.filter (fun e => match e with
    | .up _ q _ => q == p
    | .del _ => false)).length

/-! ## Recovery, upload, audio and thumbnail phases (lines 539-744) -/

/-- Lines 539-567: if the selected file does not exist, retry with a direct
`curl` to a fixed name (the POSIX branch; the handler never runs the Windows
branch in deployment).  With a stable listing the selected path always
exists, so this is vacuous, but it is modelled from the source. -/
def recoveryPhase (env : Env) (fs : List FileRec) (filename : String) :
    List FileRec × Except String String :=
  if fsExists fs filename then (fs, .ok filename)
  else
    match env.curlOutcome with
    | .error _ => (fs, .error "All attempts to download and locate media file failed")
    | .ok sz =>
      if sz > 0 then
        (fs ++ [{ name := "video.mp4", size := sz, isFile := true }],
          .ok (tempDir ++ "/video.mp4"))
      else (fs, .error "All attempts to download and locate media file failed")

/-- Lines 579-629: upload the video artifact; on failure check the file and
retry once; wrap any failure in the line 629 `RuntimeError`.  Deletion
(lines 607, 619) happens only right after the successful upload.
Lines 586-599 (stat, permission fixes) only log and never raise. -/
def uploadVideoPhase (env : Env) (fs : List FileRec) (filename : String) :
    List Ev × List FileRec × Except String String :=
  if !(fsExists fs filename) then
    ([], fs, .error ("Failed to upload file " ++ filename ++
      ": File disappeared before upload: " ++ filename))
  else
    match env.uploadOutcome filename 0 with
    | .ok url => ([.up .video filename true, .del filename], fsRemove fs filename, .ok url)
    | .error _ =>
      if fsExists fs filename && fsSize fs filename > 0 then
        match env.uploadOutcome filename 1 with
        | .ok url =>
          ([.up .video filename false, .up .video filename true, .del filename],
            fsRemove fs filename, .ok url)
        | .error e2 =>
          ([.up .video filename false, .up .video filename false], fs,
            .error ("Failed to upload file " ++ filename ++ ": " ++ e2))
      else
        ([.up .video filename false], fs,
          .error ("Failed to upload file " ++ filename ++ ": File invalid before retry: " ++
            filename))

/-- Lines 631-673: when audio extraction was requested, search for an
existing file with the requested extension (exact names first — the starred
pattern is skipped by the `'*' not in pattern` guard — then any listed entry
with the extension other than the main file), upload it once, and delete it
only after a successful upload.  An upload failure is swallowed: no retry,
`audio_url` stays unset.  No conversion of any kind happens. -/
def audioPhase (env : Env) (r : Request) (info : MediaInfo) (fs : List FileRec)
    (prior : List Ev) (filename : String) : List Ev × List FileRec × Option String :=
  if audioExtract r then
    let audio_format := reqAudioFormat r
    let name1 := pyStr info.id ++ "." ++ audio_format
    let name3 := splitextRoot (basenameOf filename) ++ "." ++ audio_format
    let audio_path :=
      if fsExists fs (tempDir ++ "/" ++ name1) then some (tempDir ++ "/" ++ name1)
      else if fsExists fs (tempDir ++ "/" ++ name3) then some (tempDir ++ "/" ++ name3)
      else
        fs.findSome? (fun e =>
          if strEndsWith e.name ("." ++ audio_format) && fsPath e != filename then
            some (fsPath e)
          else none)
    match audio_path with
    | none => ([], fs, none)
    | some p =>
      match env.uploadOutcome p (upCount prior p) with
      | .ok url => ([.up .audio p true, .del p], fsRemove fs p, some url)
      | .error _ => ([.up .audio p false], fs, none)
  else ([], fs, none)

/-- One iteration of the thumbnail loop (lines 724-744): skip entries with a
falsy url, download, upload, delete only after the successful upload; any
exception skips the entry. -/
def runThumb (env : Env) (fs : List FileRec) (prior : List Ev) (t : ThumbInfo) :
    List FileRec × List Ev × Option ThumbRec :=
  if strTruthy t.url then
    match env.thumbFetch (t.url.getD "") with
    | .error _ => (fs, [], none)
    | .ok f =>
      let fs := fs ++ [f]
      let path := fsPath f
      match env.uploadOutcome path (upCount prior path) with
      | .error _ => (fs, [.up .thumb path false], none)
      | .ok turl =>
        (fsRemove fs path, [.up .thumb path true, .del path],
          some { id := t.id.getD "default", image_url := turl, width := t.width,
                 height := t.height, original_format := t.ext,
                 converted := t.converted.getD false })
  else (fs, [], none)

/-- The whole thumbnail loop. -/
def runThumbs (env : Env) (fs : List FileRec) (prior : List Ev) :
    List ThumbInfo → List FileRec × List Ev × List ThumbRec
  | [] => (fs, [], [])
  | t :: ts =>
    let (fs1, evs1, tr1) := runThumb env fs prior t
    let (fs2, evs2, trs) := runThumbs env fs1 (prior ++ evs1) ts
    (fs2, evs1 ++ evs2, (match tr1 with | some tr => [tr] | none => []) ++ trs)

/-- Lines 682-706: the `media` block, with every missing key defaulted.  The
`filesize` default reads the file size only if the path still exists — it was
deleted after its upload, so the default is 0. -/
def mkMediaBlock (r : Request) (opts : YdlOpts) (info : MediaInfo) (fs : List FileRec)
    (filename : String) (cloud_url : String) (now : Nat) : MediaBlock :=
  { media_url := cloud_url
    title := info.title.getD "Unknown Title"
    format_id := info.format_id.getD "unknown"
    ext := info.ext.getD "mp4"
    resolution := info.resolution.getD "unknown"
    filesize := info.filesize.getD
      (if filename != "" && fsExists fs filename then fsSize fs filename else 0)
    width := info.width.getD 0
    height := info.height.getD 0
    fps := info.fps.getD 0
    video_codec := info.vcodec.getD "unknown"
    audio_codec := info.acodec.getD "unknown"
    tbr := info.tbr.getD 0
    vbr := info.vbr.getD 0
    abr := info.abr.getD 0
    upload_date := info.upload_date.getD ""
    duration := info.duration.getD 0
    view_count := info.view_count.getD 0
    uploader := info.uploader.getD "unknown"
    uploader_id := info.uploader_id.getD "unknown"
    description := info.description.getD ""
    requested_format := if fmtTruthy r then (r.format.getD {}).quality else none
    actual_format := opts.format
    download_timestamp := now }

/-- Lines 466-746: everything inside the `except` block after the tier-3
inner `try` succeeded — directory re-listing, file selection, recovery, video
upload with one retry, audio search and single-attempt upload, response
assembly and the thumbnail loop.  Returns the emitted upload/delete events
and either the success response or the raised exception message. -/
def processArtifacts (env : Env) (r : Request) (opts : YdlOpts)
    (info0 : Option MediaInfo) (files : List FileRec) :
    List Ev × Except String ResponseRec :=
  if files.isEmpty then
    ([], .error ("No files found in " ++ tempDir ++ " after successful download was reported"))
  else
    let video_id := match info0 with
      | some i => i.id
      | none => none
    let info := info0.getD synthInfo
    match selectFile files video_id with
    | none => ([], .error ("Could not identify any usable media file in " ++ tempDir))
    | some filename0 =>
      match recoveryPhase env files filename0 with
      | (_, .error e) => ([], .error e)
      | (fs0, .ok filename) =>
        if !(fsExists fs0 filename) then
          ([], .error ("File " ++ filename ++ " does not exist after all recovery attempts"))
        else if fsSize fs0 filename == 0 then
          ([], .error ("File " ++ filename ++ " exists but has zero size"))
        else
          match uploadVideoPhase env fs0 filename with
          | (vEvs, _, .error e) => (vEvs, .error e)
          | (vEvs, fs1, .ok cloud_url) =>
            let (aEvs, fs2, audio_url) := audioPhase env r info fs1 vEvs filename
            let doThumbs := listTruthy info.thumbnails && thumbDownload r
            let (tEvs, thumbRecs) :=
              if doThumbs then
                let (_, tEvs, trs) := runThumbs env fs2 (vEvs ++ aEvs) (info.thumbnails.getD [])
                (tEvs, some trs)
              else ([], none)
            (vEvs ++ aEvs ++ tEvs,
              .ok { media := mkMediaBlock r opts info fs2 filename cloud_url env.now
                    audio :=
                      if strTruthy audio_url then
                        some { audio_url := audio_url.getD "",
                               format := reqAudioFormat r,
                               quality := reqAudioQuality r }
                      else none
                    thumbnails := thumbRecs })

/-! ## The outer handler (lines 86-771) -/

/-- Lines 754-769: the user-facing error message derived from `str(e)`. -/
def errorMessageFor (e : String) : String :=
  if strContains e "No such file or directory" then
    "The system could not locate the downloaded file. This may be due to a yt-dlp extraction failure or an unsupported video format. Error: " ++ e
  else if strContains e "Conversion failed" then
    "Media conversion failed. This might be due to an unsupported format or issues with FFmpeg processing. We will try a different approach for this media type in future releases."
  else
    "Download failed: " ++ e ++ ". Please check the URL and try again."

/-- The route identifier of the returned triples (lines 746, 771). -/
def routeId : String := "/v1/media/download"

/-- What the handler hands back to the queue wrapper. -/
inductive HandlerOut
  /-- `return response, "/v1/media/download", 200` (line 746). -/
  | success (resp : ResponseRec) (route : String) (code : Nat)
  /-- `return error_message, "/v1/media/download", 500` (line 771). -/
  | failure (msg : String) (route : String) (code : Nat)
deriving Repr, DecidableEq

/-- The whole `download_media` handler: the option resolution and probe, the
tier machine, and — only on the exception path — the artifact processing.
Returns the tier trace, the upload/delete events, and the returned triple;
`none` is Python's implicit `return None` when the guarded `try` block
completes and control falls off the end of the function. -/
def download_media (r : Request) (env : Env) : List Tier × List Ev × Option HandlerOut :=
  match env.probe with
  | .error e => ([], [], some (.failure (errorMessageFor e) routeId 500))
  | .ok probeInfo =>
    let opts := resolveOpts r probeInfo
    let (trace, out) := runDownloadTiers env
    match out with
    | .fellThrough => (trace, [], none)
    | .raised e => (trace, [], some (.failure (errorMessageFor e) routeId 500))
    | .proceed info files =>
      match processArtifacts env r opts info files with
      | (evs, .ok resp) => (trace, evs, some (.success resp routeId 200))
      | (evs, .error e) => (trace, evs, some (.failure (errorMessageFor e) routeId 500))

/-- The success response of a handler outcome, when there is one. -/
def responseOf : Option HandlerOut → Option ResponseRec
  | some (.success resp _ _) => some resp
  | _ => none

/-- The status code of a handler outcome, when a triple was returned. -/
def statusOf : Option HandlerOut → Option Nat
  | some (.success _ _ c) => some c
  | some (.failure _ _ c) => some c
  | none => none

/-! ## Event-trace predicates -/

/-- Upload events for a given artifact role. -/
def isUpRole (ro : Role) : Ev → Bool
  | Ev.up ro2 _ _ => ro2 == ro
  | Ev.del _ => false

/-- A step of the deletion discipline: a deletion may only immediately follow
a successful upload of the same path. -/
def delOkStep : Ev → Ev → Bool
  | Ev.up _ p true, Ev.del q => p == q
  | _, Ev.del _ => false
  | _, _ => true

/-- An event list does not begin with a deletion. -/
def noLeadDel : List Ev → Bool
  | Ev.del _ :: _ => false
  | _ => true

/-- Every deletion in the list comes immediately after a successful upload of
the very same path. -/
def deletesFollowOwnUpload (l : List Ev) : Prop :=
  List.Chain' (fun a b => delOkStep a b = true) l ∧ noLeadDel l = true

/-! ## A concrete environment for witnesses and counterexamples

Tier 1 raises, the subprocess tier succeeds with one produced file, every
upload succeeds, every thumbnail download fails.  Individual claims override
single fields. -/

def testEnv : Env :=
  { probe := .ok none
    tier1 := .error "boom"
    filesAfter1 := []
    tier2 := .error "boom2"
    filesAfter2 := []
    tier3Exit := 0
    tier3Stderr := ""
    filesAfter3 := [{ name := "abc.mp4", size := 100, isFile := true }]
    tier3Info := .ok (some { id := some "abc" })
    curlOutcome := .error "no curl"
    uploadOutcome := fun p _ => .ok ("https://cdn" ++ p)
    thumbFetch := fun _ => .error "connection reset"
    now := 0 }

/-! ## Step lemmas: which steps leave the selector untouched -/

theorem retriesEarlyStep_format (r : Request) (o : YdlOpts) :
    (retriesEarlyStep r o).format = o.format := by
  unfold retriesEarlyStep
  split
  · split <;> rfl
  · rfl

theorem thumbStep_format (r : Request) (o : YdlOpts) :
    (thumbStep r o).format = o.format := by
  unfold thumbStep
  dsimp only
  split
  · split <;> rfl
  · rfl

theorem subStep_format (r : Request) (o : YdlOpts) :
    (subStep r o).format = o.format := by
  unfold subStep
  dsimp only
  split
  · split <;> split <;> rfl
  · rfl

theorem dlStep_format (r : Request) (o : YdlOpts) :
    (dlStep r o).format = o.format := by
  unfold dlStep
  dsimp only
  split
  · split <;> split <;> split <;> rfl
  · rfl

theorem mergerStep_format (r : Request) (o : YdlOpts) :
    (mergerStep r o).format = o.format := by
  unfold mergerStep
  dsimp only
  split
  · split <;> rfl
  · rfl

theorem specialUrlStep_format (r : Request) (o : YdlOpts)
    (h : (r.media_url == problematicUrl) = false) :
    (specialUrlStep r o).format = o.format := by
  unfold specialUrlStep
  simp [h]

theorem youtubeAudioStep_format_of_not_youtube (r : Request) (o : YdlOpts)
    (h : is_youtube r.media_url = false) :
    (youtubeAudioStep r o) = o := by
  unfold youtubeAudioStep
  simp [h]

theorem audioStep_format_of_fmt (r : Request) (o : YdlOpts)
    (h : fmtTruthy r = true) :
    (audioStep r o).format = o.format := by
  unfold audioStep
  simp [h]
  split <;> rfl

theorem formatStep_of_fmt_false (r : Request) (o : YdlOpts)
    (h : fmtTruthy r = false) :
    formatStep r o = o := by
  unfold formatStep
  simp [h]

theorem probeStep_format_of_fmt_false (r : Request) (probe : Option ProbeInfo) (o : YdlOpts)
    (h : fmtTruthy r = false) :
    (probeStep r probe o).format = o.format := by
  unfold probeStep
  split
  · rfl
  · simp [h]

theorem probeStep_format_of_no_override (r : Request) (probe : Option ProbeInfo) (o : YdlOpts)
    (h : strContains ((r.format.getD {}).quality.getD "") "best" = false ∨ probeBest probe = none) :
    (probeStep r probe o).format = o.format := by
  unfold probeStep
  rcases h with h | h
  · split
    · rfl
    · simp [h]
  · rw [h]

/-- Not being a YouTube URL rules out the hard-coded problematic URL. -/
theorem ne_problematic_of_not_youtube (url : String) (h : is_youtube url = false) :
    (url == problematicUrl) = false := by
  cases hbe : url == problematicUrl
  · rfl
  · have heq : url = problematicUrl := eq_of_beq hbe
    subst heq
    exact absurd h (by decide)

/-- The subtitle-related option keys, bundled for preservation lemmas. -/
def subFields (o : YdlOpts) : Option Bool × Option Bool × Option (List String) :=
  (o.writesubtitles, o.writeallsubtitles, o.subtitleslangs)

theorem dlStep_subFields (r : Request) (o : YdlOpts) :
    subFields (dlStep r o) = subFields o := by
  unfold dlStep subFields
  dsimp only
  split
  · split <;> split <;> split <;> rfl
  · rfl

theorem mergerStep_subFields (r : Request) (o : YdlOpts) :
    subFields (mergerStep r o) = subFields o := by
  unfold mergerStep subFields
  dsimp only
  split
  · split <;> rfl
  · rfl

theorem specialUrlStep_subFields (r : Request) (o : YdlOpts) :
    subFields (specialUrlStep r o) = subFields o := by
  unfold specialUrlStep subFields
  dsimp only
  split
  · split
    · split <;> rfl
    · rfl
  · rfl

theorem probeStep_subFields (r : Request) (probe : Option ProbeInfo) (o : YdlOpts) :
    subFields (probeStep r probe o) = subFields o := by
  unfold probeStep subFields
  split
  · rfl
  · split <;> rfl

theorem subStep_of_false (r : Request) (o : YdlOpts) (h : subsTruthy r = false) :
    subStep r o = o := by
  unfold subStep
  simp [h]

theorem thumbStep_fields (r : Request) (o : YdlOpts) (t : ThumbOpts)
    (h1 : r.thumbnails = some t) (h2 : t.isTruthy = true) :
    (thumbStep r o).writesubtitles = some (t.download.getD false) ∧
    (thumbStep r o).writeallsubtitles = some (t.download_all.getD false) ∧
    (listTruthy t.formats = true → (thumbStep r o).subtitleslangs = t.formats) := by
  have ht : thumbsTruthy r = true := by unfold thumbsTruthy; rw [h1]; exact h2
  unfold thumbStep
  simp only [ht, h1, eq_self_iff_true, if_true, Option.getD]
  refine ⟨?_, ?_, ?_⟩
  · split <;> rfl
  · split <;> rfl
  · intro hl
    split
    · rfl
    · rename_i hfalse
      exact absurd hl hfalse

theorem subStep_fields (r : Request) (o : YdlOpts) (s : SubOpts)
    (h1 : r.subtitles = some s) (h2 : s.isTruthy = true) :
    (subStep r o).writesubtitles = some (s.download.getD false) ∧
    (subStep r o).writeallsubtitles = o.writeallsubtitles ∧
    (listTruthy s.languages = true → (subStep r o).subtitleslangs = s.languages) := by
  have hs : subsTruthy r = true := by unfold subsTruthy; rw [h1]; exact h2
  unfold subStep
  simp only [hs, h1, eq_self_iff_true, if_true, Option.getD]
  refine ⟨?_, ?_, ?_⟩
  · split <;> split <;> rfl
  · split <;> split <;> rfl
  · intro hl
    split <;> split
    all_goals first
      | rfl
      | (rename_i hfalse; exact absurd hl hfalse)

theorem formatStep_verbatim (r : Request) (o : YdlOpts) (fo : FormatOpts) (q : String)
    (h1 : r.format = some fo) (h2 : fo.quality = some q) (h3 : q ≠ "")
    (h4 : is_youtube r.media_url = false) :
    (formatStep r o).format = q := by
  have hf : fmtTruthy r = true := by
    simp [fmtTruthy, h1, FormatOpts.isTruthy, h2]
  have hq : strTruthy fo.quality = true := by
    rw [h2]
    unfold strTruthy
    simp [h3]
  unfold formatStep
  simp only [hf, h1, hq, h4, eq_self_iff_true, if_true, Option.getD, Bool.false_eq_true,
    if_false, reduceCtorEq, reduceIte]
  rw [h2]

theorem audioStep_bestaudio (r : Request) (o : YdlOpts)
    (h1 : audioExtract r = true) (h2 : is_youtube r.media_url = true)
    (h3 : fmtTruthy r = false) :
    (audioStep r o).format = "bestaudio/best" := by
  unfold audioStep
  simp [h1, h2, h3]

/-! ## Claim theorems -/

/-- C3, counterexample: for a YouTube source URL with the raw quality
expression `bestvideo+bestaudio`, the resolved selector is NOT the raw
expression verbatim — the YouTube enrichment rewrites `bestvideo` to
`bestvideo[height>=720]` — refuting the claim that the raw expression is
used verbatim for every source URL with no rewriting. -/
theorem c3_counterexample :
    (resolveOpts
      { media_url := "https://youtube.com/watch?v=x",
        format := some { quality := some "bestvideo+bestaudio" } } none).format
        = "bestvideo[height>=720]+bestaudio" ∧
    (resolveOpts
      { media_url := "https://youtube.com/watch?v=x",
        format := some { quality := some "bestvideo+bestaudio" } } none).format
        ≠ "bestvideo+bestaudio" := by
  decide

/-- C3, amended: for every `FormatSpec` whose raw quality expression is a
non-empty string, the selector handed to the extraction engine equals that
quality string verbatim provided the source URL is not a YouTube URL (which
rules out both the `bestvideo` enrichment and the hard-coded problematic-URL
override) and the probe-based best-format override does not fire (the quality
string does not contain `best`, or the probe yields no usable best pair). -/
theorem c3_raw_quality_verbatim (r : Request) (probe : Option ProbeInfo)
    (fo : FormatOpts) (q : String)
    (h1 : r.format = some fo) (h2 : fo.quality = some q) (h3 : q ≠ "")
    (h4 : is_youtube r.media_url = false)
    (h5 : strContains q "best" = false ∨ probeBest probe = none) :
    (resolveOpts r probe).format = q := by
  have hf : fmtTruthy r = true := by
    simp [fmtTruthy, h1, FormatOpts.isTruthy, h2]
  have h5' : strContains ((r.format.getD {}).quality.getD "") "best" = false ∨
      probeBest probe = none := by
    rw [h1]
    dsimp only [Option.getD]
    rw [h2]
    exact h5
  unfold resolveOpts
  rw [probeStep_format_of_no_override _ _ _ h5',
    specialUrlStep_format _ _ (ne_problematic_of_not_youtube _ h4),
    mergerStep_format, dlStep_format, subStep_format, thumbStep_format,
    audioStep_format_of_fmt _ _ hf,
    formatStep_verbatim _ _ _ _ h1 h2 h3 h4]

/-- C3, witness: a concrete non-YouTube request whose raw quality expression
survives verbatim. -/
theorem c3_raw_quality_verbatim_witness :
    (resolveOpts
      { media_url := "https://example.com/v",
        format := some { quality := some "vq+aq" } } none).format = "vq+aq" :=
  c3_raw_quality_verbatim _ none _ "vq+aq" rfl rfl (by decide) (by decide) (Or.inr rfl)

/-- C4, counterexample: for a non-YouTube source URL with `audio.extract =
true` and no `format` object, the resolved selector stays at the default
`bestvideo+bestaudio/best`, which requests a video stream — refuting the
claim that the audio-only fast path applies regardless of the source URL
(the fast path is gated on the URL being a YouTube URL). -/
theorem c4_counterexample :
    (resolveOpts
      { media_url := "https://example.com/v",
        audio := some { extract := some true } } none).format
        = "bestvideo+bestaudio/best" ∧
    strContains (resolveOpts
      { media_url := "https://example.com/v",
        audio := some { extract := some true } } none).format "bestvideo" = true := by
  decide

/-- C4, amended: for every request with `audio.extract = true` and no truthy
`format` object whose source URL is a YouTube URL other than the hard-coded
problematic URL, the resolved selector is exactly `bestaudio/best` (the
audio-only fast path), for every probe outcome. -/
theorem c4_audio_fast_path (r : Request) (probe : Option ProbeInfo) (ao : AudioOpts)
    (h1 : r.audio = some ao) (h2 : ao.extract = some true)
    (h3 : fmtTruthy r = false)
    (h4 : is_youtube r.media_url = true)
    (h5 : (r.media_url == problematicUrl) = false) :
    (resolveOpts r probe).format = "bestaudio/best" := by
  have hae : audioExtract r = true := by
    simp [audioExtract, audioTruthy, boolTruthy, AudioOpts.isTruthy, h1, h2, Option.getD]
  unfold resolveOpts
  rw [probeStep_format_of_fmt_false _ _ _ h3,
    specialUrlStep_format _ _ h5,
    mergerStep_format, dlStep_format, subStep_format, thumbStep_format,
    audioStep_bestaudio _ _ hae h4 h3]

/-- C4, witness: a concrete YouTube request with audio extraction and no
format object resolves to the audio-only selector. -/
theorem c4_audio_fast_path_witness :
    (resolveOpts
      { media_url := "https://youtu.be/x",
        audio := some { extract := some true } } none).format = "bestaudio/best" :=
  c4_audio_fast_path _ none _ rfl rfl (by decide) (by decide) (by decide)

/-- C10, counterexample: a request whose `thumbnails` object is present but
empty (falsy in Python) leaves the subtitle option keys entirely unset —
refuting the claim that for every request including a thumbnails object the
subtitle options are written from the thumbnail fields. -/
theorem c10_counterexample :
    (resolveOpts
      { media_url := "https://example.com/v", thumbnails := some {} }
      none).writesubtitles = none ∧
    (resolveOpts
      { media_url := "https://example.com/v", thumbnails := some {} }
      none).writeallsubtitles = none := by
  decide

/-- C10, amended: for every request whose `thumbnails` object is non-empty,
the engine option set's subtitle options are written from the thumbnail
fields: `writesubtitles := thumbnails.download`, `writeallsubtitles :=
thumbnails.download_all`, and `subtitleslangs := thumbnails.formats` when
that list is non-empty; and a non-empty `subtitles` object in the same
request afterwards overwrites `writesubtitles` (and `subtitleslangs` when
`subtitles.languages` is non-empty) but never `writeallsubtitles`. -/
theorem c10_thumbnail_subtitle_coupling (r : Request) (probe : Option ProbeInfo)
    (t : ThumbOpts) (h1 : r.thumbnails = some t) (h2 : t.isTruthy = true) :
    (subsTruthy r = false →
      (resolveOpts r probe).writesubtitles = some (t.download.getD false) ∧
      (resolveOpts r probe).writeallsubtitles = some (t.download_all.getD false) ∧
      (listTruthy t.formats = true → (resolveOpts r probe).subtitleslangs = t.formats)) ∧
    (resolveOpts r probe).writeallsubtitles = some (t.download_all.getD false) ∧
    (∀ s : SubOpts, r.subtitles = some s → s.isTruthy = true →
      (resolveOpts r probe).writesubtitles = some (s.download.getD false) ∧
      (listTruthy s.languages = true → (resolveOpts r probe).subtitleslangs = s.languages)) := by
  have hchain : subFields (resolveOpts r probe) =
      subFields (subStep r (thumbStep r (audioStep r (formatStep r
        (retriesEarlyStep r (youtubeAudioStep r (initOpts r))))))) := by
    unfold resolveOpts
    rw [probeStep_subFields, specialUrlStep_subFields, mergerStep_subFields, dlStep_subFields]
  have hws : (resolveOpts r probe).writesubtitles =
      (subStep r (thumbStep r (audioStep r (formatStep r
        (retriesEarlyStep r (youtubeAudioStep r (initOpts r))))))).writesubtitles :=
    congrArg Prod.fst hchain
  have hwas : (resolveOpts r probe).writeallsubtitles =
      (subStep r (thumbStep r (audioStep r (formatStep r
        (retriesEarlyStep r (youtubeAudioStep r (initOpts r))))))).writeallsubtitles :=
    congrArg (fun p => p.2.1) hchain
  have hsl : (resolveOpts r probe).subtitleslangs =
      (subStep r (thumbStep r (audioStep r (formatStep r
        (retriesEarlyStep r (youtubeAudioStep r (initOpts r))))))).subtitleslangs :=
    congrArg (fun p => p.2.2) hchain
  obtain ⟨ht1, ht2, ht3⟩ := thumbStep_fields r
    (audioStep r (formatStep r (retriesEarlyStep r (youtubeAudioStep r (initOpts r))))) t h1 h2
  refine ⟨?_, ?_, ?_⟩
  · intro hsub
    rw [hws, hwas, hsl, subStep_of_false _ _ hsub]
    exact ⟨ht1, ht2, ht3⟩
  · rw [hwas]
    rcases hsubs : subsTruthy r with hfalse | htrue
    · rw [subStep_of_false _ _ hsubs]
      exact ht2
    · unfold subsTruthy at hsubs
      rcases hss : r.subtitles with _ | s
      · rw [hss] at hsubs
        exact absurd hsubs (by simp)
      · rw [hss] at hsubs
        obtain ⟨_, hs2, _⟩ := subStep_fields r
          (thumbStep r (audioStep r (formatStep r
            (retriesEarlyStep r (youtubeAudioStep r (initOpts r)))))) s hss hsubs
        rw [hs2]
        exact ht2
  · intro s hss hstruthy
    obtain ⟨hs1, _, hs3⟩ := subStep_fields r
      (thumbStep r (audioStep r (formatStep r
        (retriesEarlyStep r (youtubeAudioStep r (initOpts r)))))) s hss hstruthy
    exact ⟨by rw [hws]; exact hs1, fun hl => by rw [hsl]; exact hs3 hl⟩

/-- C10, witness: a concrete request with a non-empty thumbnails object and a
non-empty subtitles object, instantiating the amended claim. -/
theorem c10_thumbnail_subtitle_coupling_witness :
    (resolveOpts
      { media_url := "https://example.com/v",
        thumbnails := some { download := some true, formats := some ["jpg", "png"] },
        subtitles := some { download := some false, languages := some ["en"] } }
      none).writeallsubtitles = some false ∧
    (resolveOpts
      { media_url := "https://example.com/v",
        thumbnails := some { download := some true, formats := some ["jpg", "png"] },
        subtitles := some { download := some false, languages := some ["en"] } }
      none).writesubtitles = some false ∧
    (resolveOpts
      { media_url := "https://example.com/v",
        thumbnails := some { download := some true, formats := some ["jpg", "png"] },
        subtitles := some { download := some false, languages := some ["en"] } }
      none).subtitleslangs = some ["en"] := by
  obtain ⟨hA, hB, hC⟩ := c10_thumbnail_subtitle_coupling
    { media_url := "https://example.com/v",
      thumbnails := some { download := some true, formats := some ["jpg", "png"] },
      subtitles := some { download := some false, languages := some ["en"] } } none
    { download := some true, formats := some ["jpg", "png"] } rfl (by decide)
  obtain ⟨hws, hsl⟩ := hC { download := some false, languages := some ["en"] } rfl (by decide)
  exact ⟨hB, hws, hsl (by decide)⟩

/-! ## Tier-machine lemmas -/

theorem tier3Run_fst (env : Env) (pre : List Tier) (de : String) :
    (tier3Run env pre de).1 = pre ++ [Tier.three] := by
  unfold tier3Run
  split
  · rfl
  · split
    · rfl
    · split <;> rfl

theorem tier3Run_proceed_inv (env : Env) (pre : List Tier) (de : String)
    (tr : List Tier) (info : Option MediaInfo) (files : List FileRec)
    (h : tier3Run env pre de = (tr, DlOutcome.proceed info files)) :
    tr = pre ++ [Tier.three] ∧ env.tier3Exit = 0 ∧ files = env.filesAfter3 ∧
      env.filesAfter3 ≠ [] := by
  unfold tier3Run at h
  split at h
  · exact absurd h (by simp)
  · rename_i hexit
    split at h
    · exact absurd h (by simp)
    · rename_i hne
      split at h
      · exact absurd h (by simp)
      · injection h with htr hout
        injection hout with hinfo hfiles
        refine ⟨htr.symm, by simpa using hexit, hfiles.symm, by simpa using hne⟩

theorem tryPhase_of_t1_error (env : Env) (e : String) (h : env.tier1 = Except.error e) :
    tryPhase env = ([Tier.one], some e) := by
  unfold tryPhase
  rw [h]

theorem tryPhase_none_of_files (env : Env) (i : MediaInfo)
    (h1 : env.tier1 = Except.ok (some i)) (h2 : env.filesAfter1 ≠ []) :
    tryPhase env = ([Tier.one], none) := by
  unfold tryPhase
  simp [h1, h2]

theorem tryPhase_none_of_t2 (env : Env) (i : MediaInfo) (j : Option MediaInfo)
    (h1 : env.tier1 = Except.ok (some i)) (h2 : env.filesAfter1 = [])
    (h3 : env.tier2 = Except.ok j) (h4 : env.filesAfter2 ≠ []) :
    tryPhase env = ([Tier.one, Tier.two], none) := by
  unfold tryPhase
  simp [h1, h2, h3, h4]

theorem tryPhase_fst_cases (env : Env) :
    (tryPhase env).1 = [Tier.one] ∨ (tryPhase env).1 = [Tier.one, Tier.two] := by
  unfold tryPhase
  rcases h1 : env.tier1 with e | (_ | i)
  · simp
  · simp
  · rcases h2 : env.filesAfter1 with _ | ⟨a, l⟩
    · rcases h3 : env.tier2 with e2 | j <;> simp [apply_ite]
    · simp

theorem tryPhase_fst_two_iff (env : Env) :
    ((tryPhase env).1 = [Tier.one, Tier.two]) ↔
      ((∃ i, env.tier1 = Except.ok (some i)) ∧ env.filesAfter1 = []) := by
  unfold tryPhase
  rcases h1 : env.tier1 with e | (_ | i)
  · simp [h1]
  · simp [h1]
  · rcases h2 : env.filesAfter1 with _ | ⟨a, l⟩
    · rcases h3 : env.tier2 with e2 | j <;> simp [h1, h2, apply_ite]
    · simp [h1, h2]

theorem runDownloadTiers_fst (env : Env) :
    (runDownloadTiers env).1 = (tryPhase env).1 ∨
      (runDownloadTiers env).1 = (tryPhase env).1 ++ [Tier.three] := by
  unfold runDownloadTiers
  rcases h : tryPhase env with ⟨tr, de⟩
  cases de
  · exact Or.inl rfl
  · exact Or.inr (by rw [tier3Run_fst])

theorem runDownloadTiers_proceed_inv (env : Env) (tr : List Tier)
    (info : Option MediaInfo) (files : List FileRec)
    (h : runDownloadTiers env = (tr, DlOutcome.proceed info files)) :
    Tier.three ∈ tr ∧ env.tier3Exit = 0 ∧ env.filesAfter3 ≠ [] := by
  unfold runDownloadTiers at h
  rcases htp : tryPhase env with ⟨tr0, de⟩
  rw [htp] at h
  cases de with
  | none => exact absurd h (by simp)
  | some msg =>
    obtain ⟨ht, he, _, hne⟩ := tier3Run_proceed_inv env tr0 msg tr info files h
    refine ⟨?_, he, hne⟩
    rw [ht]
    exact List.mem_append_right _ (by simp)

/-! ## Claims C1, C2, C6 -/

/-- C1, evaluated at the failing input: when the primary structured download
succeeds (yt-dlp returns a truthy info and the directory is non-empty), the
handler returns no `(body, route, status)` triple at all — Python falls off
the end of the function and returns `None` — contradicting the claim that
every request yields a 200 or 500 triple.  The success/return code sits
inside the `except` block (see C2), so the success triple is unreachable on
this path. -/
theorem c1_no_triple_on_primary_success :
    download_media { media_url := "https://example.com/a" }
      { testEnv with tier1 := Except.ok (some { id := some "abc" }),
                     filesAfter1 := [{ name := "abc.mp4", size := 100, isFile := true }] }
      = ([Tier.one], [], none) := by
  decide

/-- C2: (a) whenever the guarded `try` block completes without an exception —
the primary call returns a truthy info and either the directory is non-empty
or the in-try fallback returns with a non-empty directory — the handler
returns `None` (no return statement is reached); (b) whenever a 200 success
triple IS returned, tier 3 (the direct subprocess fallback inside the
`except` block) ran and succeeded: the artifact/upload/response code is
executed only on the exception path. -/
theorem c2_success_code_inside_except (r : Request) (env : Env) :
    (∀ pi i, env.probe = Except.ok pi → env.tier1 = Except.ok (some i) →
      (env.filesAfter1 ≠ [] ∨ ((∃ j, env.tier2 = Except.ok j) ∧ env.filesAfter2 ≠ [])) →
      (download_media r env).2.2 = none) ∧
    (∀ tr evs resp route code,
      download_media r env = (tr, evs, some (HandlerOut.success resp route code)) →
      Tier.three ∈ tr ∧ env.tier3Exit = 0 ∧ env.filesAfter3 ≠ []) := by
  constructor
  · intro pi i hp h1 h2
    have htp : tryPhase env = ([Tier.one], none) ∨
        tryPhase env = ([Tier.one, Tier.two], none) := by
      rcases h2 with h2 | ⟨⟨j, hj⟩, h4⟩
      · exact Or.inl (tryPhase_none_of_files env i h1 h2)
      · rcases hf : env.filesAfter1 with _ | ⟨a, l⟩
        · exact Or.inr (tryPhase_none_of_t2 env i j h1 hf hj h4)
        · exact Or.inl (tryPhase_none_of_files env i h1 (by rw [hf]; simp))
    unfold download_media runDownloadTiers
    rw [hp]
    rcases htp with htp | htp <;> rw [htp] <;> rfl
  · intro tr evs resp route code h
    unfold download_media at h
    rcases hp : env.probe with e | pi <;> rw [hp] at h
    · exact absurd h (by simp)
    · rcases hrt : runDownloadTiers env with ⟨tr2, out⟩
      rw [hrt] at h
      cases out with
      | fellThrough => exact absurd h (by simp)
      | raised e => exact absurd h (by simp)
      | proceed info files =>
        dsimp only at h
        rcases hpa : processArtifacts env r (resolveOpts r pi) info files with ⟨evs2, res⟩
        rw [hpa] at h
        cases res with
        | error e => exact absurd h (by simp)
        | ok resp2 =>
          injection h with htr hrest
          obtain ⟨hmem, hexit, hne⟩ := runDownloadTiers_proceed_inv env tr2 info files hrt
          exact ⟨htr ▸ hmem, hexit, hne⟩

/-- C2, witness: a concrete request whose primary download succeeds; the
handler returns `None`. -/
theorem c2_success_code_inside_except_witness :
    (download_media { media_url := "https://example.com/b" }
      { testEnv with tier1 := Except.ok (some { id := some "xyz" }),
                     filesAfter1 := [{ name := "xyz.mp4", size := 7, isFile := true }] }).2.2
      = none :=
  (c2_success_code_inside_except _ _).1 none { id := some "xyz" } rfl rfl (Or.inl (by decide))

/-- C6, counterexample: when tier 1 raises, control jumps straight to the
tier-3 subprocess — tier 2 (the minimal-option fallback) is skipped, because
it lives inside the `try` block and only runs when tier 1 returns with an
empty directory.  This refutes the claimed `Tier1 failure → Tier2` ordering. -/
theorem c6_counterexample :
    (download_media { media_url := "https://example.com/v" } testEnv).1
      = [Tier.one, Tier.three] ∧
    Tier.two ∉ (download_media { media_url := "https://example.com/v" } testEnv).1 := by
  decide

/-- C6, amended: each tier runs at most once per job, but the order differs
from the claim: a tier-1 exception goes directly to tier 3 (trace
`[one, three]`), and tier 2 runs exactly when tier 1 returns a truthy info
with an empty working directory. -/
theorem c6_tier_machine (env : Env) :
    ((runDownloadTiers env).1.count Tier.one ≤ 1 ∧
     (runDownloadTiers env).1.count Tier.two ≤ 1 ∧
     (runDownloadTiers env).1.count Tier.three ≤ 1) ∧
    (∀ e, env.tier1 = Except.error e → (runDownloadTiers env).1 = [Tier.one, Tier.three]) ∧
    (Tier.two ∈ (runDownloadTiers env).1 ↔
      ((∃ i, env.tier1 = Except.ok (some i)) ∧ env.filesAfter1 = [])) := by
  refine ⟨?_, ?_, ?_⟩
  · rcases runDownloadTiers_fst env with h | h <;>
      rcases tryPhase_fst_cases env with hc | hc <;>
      rw [h, hc] <;>
      exact ⟨by decide, by decide, by decide⟩
  · intro e he
    unfold runDownloadTiers
    rw [tryPhase_of_t1_error env e he]
    rw [tier3Run_fst]
    rfl
  · rw [← tryPhase_fst_two_iff]
    rcases runDownloadTiers_fst env with h | h <;> rw [h]
    · constructor
      · intro hm
        rcases tryPhase_fst_cases env with hc | hc
        · rw [hc] at hm
          simp at hm
        · exact hc
      · intro hc
        rw [hc]
        simp
    · constructor
      · intro hm
        rcases tryPhase_fst_cases env with hc | hc
        · rw [hc] at hm
          simp at hm
        · exact hc
      · intro hc
        rw [hc]
        simp

/-- C6, witness: at a concrete environment whose tier 1 raises, the trace is
`[one, three]` and each tier ran at most once. -/
theorem c6_tier_machine_witness :
    (runDownloadTiers testEnv).1 = [Tier.one, Tier.three] ∧
    (runDownloadTiers testEnv).1.count Tier.one ≤ 1 :=
  ⟨(c6_tier_machine testEnv).2.1 "boom" rfl, (c6_tier_machine testEnv).1.1⟩

/-! ## Response-assembly inversion -/

/-- Whenever artifact processing returns a success response: the `audio`
block, when present, echoes the requested format and quality strings (never
the produced artifact's), and the `thumbnails` key is present exactly when
the (possibly synthesized) engine metadata reports a non-empty thumbnail list
and thumbnail download was requested — regardless of whether any thumbnail
succeeded. -/
theorem processArtifacts_ok_inv (env : Env) (r : Request) (opts : YdlOpts)
    (info0 : Option MediaInfo) (files : List FileRec) (evs : List Ev) (resp : ResponseRec)
    (h : processArtifacts env r opts info0 files = (evs, Except.ok resp)) :
    (∀ a, resp.audio = some a → a.format = reqAudioFormat r ∧ a.quality = reqAudioQuality r) ∧
    resp.thumbnails.isSome
      = (listTruthy (info0.getD synthInfo).thumbnails && thumbDownload r) := by
  unfold processArtifacts at h
  split at h
  · exact absurd h (by simp)
  · dsimp only at h
    split at h
    · exact absurd h (by simp)
    · rename_i filename0 hsel
      split at h
      · exact absurd h (by simp)
      · rename_i fs0 filename hrec
        split at h
        · exact absurd h (by simp)
        · rename_i hex
          split at h
          · exact absurd h (by simp)
          · rename_i hsz
            split at h
            · exact absurd h (by simp)
            · rename_i vEvs fs1 cloud_url hup
              rcases hap : audioPhase env r (info0.getD synthInfo) fs1 vEvs filename
                with ⟨aEvs, fs2, audio_url⟩
              rw [hap] at h
              dsimp only at h
              split at h
              · rename_i hdo
                injection h with hevs hok
                injection hok with hresp
                subst hresp
                constructor
                · intro a ha
                  cases hsu : strTruthy audio_url
                  · rw [hsu] at ha
                    exact absurd ha (by simp)
                  · rw [hsu] at ha
                    simp only [if_true] at ha
                    injection ha with ha2
                    exact ⟨by rw [← ha2], by rw [← ha2]⟩
                · rw [hdo]
                  rfl
              · rename_i hdo
                injection h with hevs hok
                injection hok with hresp
                subst hresp
                constructor
                · intro a ha
                  cases hsu : strTruthy audio_url
                  · rw [hsu] at ha
                    exact absurd ha (by simp)
                  · rw [hsu] at ha
                    simp only [if_true] at ha
                    injection ha with ha2
                    exact ⟨by rw [← ha2], by rw [← ha2]⟩
                · simp only [Bool.not_eq_true] at hdo
                  rw [hdo]
                  rfl

/-! ## Claims C5 and C9 -/

/-- C5, counterexample: with `audio.extract = true`, `audio.format = "mp3"`
and an extraction stage that produced only an `.m4a` file, the job succeeds
but the response contains NO audio block at all: the handler performs no
conversion — it merely searches for an existing `.mp3` file, finds none, and
skips the audio upload — refuting the claim that the pipeline converts the
`.m4a` to `.mp3` and reports the actual produced format. -/
theorem c5_counterexample :
    (responseOf (download_media
      { media_url := "u", audio := some { extract := some true, format := some "mp3" } }
      { testEnv with
          filesAfter3 := [{ name := "abc.m4a", size := 100, isFile := true }] }).2.2).map
      (fun resp => resp.audio) = some none := by
  decide

/-- C5, amended: the handler never converts audio; when the extraction stage
produced no file with the requested extension the response carries no audio
block at all (counterexample above), and whenever an audio block IS present
its `format` and `quality` fields merely echo the requested values
(`audio.format`/`audio.quality` with their defaults), not properties measured
on the produced artifact. -/
theorem c5_audio_block_echoes_request (env : Env) (r : Request) (opts : YdlOpts)
    (info0 : Option MediaInfo) (files : List FileRec) (evs : List Ev) (resp : ResponseRec)
    (h : processArtifacts env r opts info0 files = (evs, Except.ok resp))
    (a : AudioBlock) (ha : resp.audio = some a) :
    a.format = reqAudioFormat r ∧ a.quality = reqAudioQuality r :=
  (processArtifacts_ok_inv env r opts info0 files evs resp h).1 a ha

/-- C5, witness: a concrete run in which an `.mp3` file exists and is
uploaded; the resulting audio block echoes the requested strings. -/
theorem c5_audio_block_echoes_request_witness :
    ({ audio_url := "https://cdn/tmp/workdir/abc.mp3", format := "mp3",
        quality := "192" } : AudioBlock).format
      = reqAudioFormat
          { media_url := "u", audio := some { extract := some true, format := some "mp3" } } ∧
    ({ audio_url := "https://cdn/tmp/workdir/abc.mp3", format := "mp3",
        quality := "192" } : AudioBlock).quality
      = reqAudioQuality
          { media_url := "u", audio := some { extract := some true, format := some "mp3" } } :=
  c5_audio_block_echoes_request
    { testEnv with
        filesAfter3 := [{ name := "abc.mp4", size := 100, isFile := true },
                        { name := "abc.mp3", size := 50, isFile := true }] }
    { media_url := "u", audio := some { extract := some true, format := some "mp3" } }
    (resolveOpts
      { media_url := "u", audio := some { extract := some true, format := some "mp3" } } none)
    (some { id := some "abc" })
    [{ name := "abc.mp4", size := 100, isFile := true },
     { name := "abc.mp3", size := 50, isFile := true }]
    _ _ rfl _ rfl

/-- C9, counterexample: a request whose every individual thumbnail
download/upload failed still yields a response WITH a `thumbnails` key — set
to the empty array, because the key is initialized before the per-thumbnail
loop and failures only `continue` — refuting the claim that the array is
present only when non-empty. -/
theorem c9_counterexample :
    (responseOf (download_media
      { media_url := "u", thumbnails := some { download := some true } }
      { testEnv with
          tier3Info := Except.ok (some
            { id := some "abc",
              thumbnails := some [{ url := some "http://t/1.jpg" }] }) }).2.2).map
      (fun resp => resp.thumbnails) = some (some []) := by
  decide

/-- C9, amended: in every successful response the `thumbnails` key is present
exactly when the engine metadata reports a non-empty thumbnail list and
thumbnail download was requested — independent of whether any individual
thumbnail succeeded, so the key can be present and empty. -/
theorem c9_thumbnails_key (env : Env) (r : Request) (opts : YdlOpts)
    (info0 : Option MediaInfo) (files : List FileRec) (evs : List Ev) (resp : ResponseRec)
    (h : processArtifacts env r opts info0 files = (evs, Except.ok resp)) :
    resp.thumbnails.isSome
      = (listTruthy (info0.getD synthInfo).thumbnails && thumbDownload r) :=
  (processArtifacts_ok_inv env r opts info0 files evs resp h).2

/-- C9, witness: the concrete all-thumbnails-fail run, where the key is
present (and empty) and the right-hand condition holds. -/
theorem c9_thumbnails_key_witness :
    (some ([] : List ThumbRec)).isSome
      = (listTruthy
          (((some
              { id := some "abc",
                thumbnails := some [{ url := some "http://t/1.jpg" }] } : Option MediaInfo).getD
            synthInfo).thumbnails) &&
        thumbDownload { media_url := "u", thumbnails := some { download := some true } }) :=
  c9_thumbnails_key testEnv
    { media_url := "u", thumbnails := some { download := some true } }
    (resolveOpts { media_url := "u", thumbnails := some { download := some true } } none)
    (some { id := some "abc", thumbnails := some [{ url := some "http://t/1.jpg" }] })
    testEnv.filesAfter3
    _ _ rfl

/-! ## Upload-count lemmas (claim C7) -/

theorem uploadVideoPhase_events (env : Env) (fs : List FileRec) (f : String) :
    ((uploadVideoPhase env fs f).1.filter (isUpRole Role.video)).length ≤ 2 ∧
    (uploadVideoPhase env fs f).1.filter (isUpRole Role.audio) = [] := by
  unfold uploadVideoPhase
  split
  · exact ⟨Nat.zero_le 2, rfl⟩
  · split
    · exact ⟨Nat.le_succ 1, rfl⟩
    · split
      · split
        · exact ⟨Nat.le_refl 2, rfl⟩
        · exact ⟨Nat.le_refl 2, rfl⟩
      · exact ⟨Nat.le_succ 1, rfl⟩

theorem audioPhase_events (env : Env) (r : Request) (info : MediaInfo) (fs : List FileRec)
    (prior : List Ev) (f : String) :
    ((audioPhase env r info fs prior f).1.filter (isUpRole Role.audio)).length ≤ 1 ∧
    (audioPhase env r info fs prior f).1.filter (isUpRole Role.video) = [] := by
  unfold audioPhase
  split
  · dsimp only
    split
    · exact ⟨Nat.zero_le 1, rfl⟩
    · split
      · exact ⟨Nat.le_refl 1, rfl⟩
      · exact ⟨Nat.le_refl 1, rfl⟩
  · exact ⟨Nat.zero_le 1, rfl⟩

theorem runThumb_events (env : Env) (fs : List FileRec) (prior : List Ev) (t : ThumbInfo) :
    (runThumb env fs prior t).2.1.filter (isUpRole Role.video) = [] ∧
    (runThumb env fs prior t).2.1.filter (isUpRole Role.audio) = [] := by
  unfold runThumb
  split
  · split
    · exact ⟨rfl, rfl⟩
    · dsimp only
      split
      · exact ⟨rfl, rfl⟩
      · exact ⟨rfl, rfl⟩
  · exact ⟨rfl, rfl⟩

theorem runThumbs_events (env : Env) (ts : List ThumbInfo) :
    ∀ (fs : List FileRec) (prior : List Ev),
      (runThumbs env fs prior ts).2.1.filter (isUpRole Role.video) = [] ∧
      (runThumbs env fs prior ts).2.1.filter (isUpRole Role.audio) = [] := by
  induction ts with
  | nil => exact fun fs prior => ⟨rfl, rfl⟩
  | cons t ts ih =>
    intro fs prior
    simp only [runThumbs]
    rcases hT : runThumb env fs prior t with ⟨fs1, evs1, tr1⟩
    rcases hTs : runThumbs env fs1 (prior ++ evs1) ts with ⟨fs2, evs2, trs⟩
    have h1 := runThumb_events env fs prior t
    rw [hT] at h1
    have h2 := ih fs1 (prior ++ evs1)
    rw [hTs] at h2
    dsimp only at h1 h2 ⊢
    simp [List.filter_append, h1.1, h1.2, h2.1, h2.2]

theorem processArtifacts_upload_bound (env : Env) (r : Request) (opts : YdlOpts)
    (info0 : Option MediaInfo) (files : List FileRec) :
    (((processArtifacts env r opts info0 files).1).filter (isUpRole Role.video)).length ≤ 2 ∧
    (((processArtifacts env r opts info0 files).1).filter (isUpRole Role.audio)).length ≤ 1 := by
  unfold processArtifacts
  split
  · exact ⟨Nat.zero_le 2, Nat.zero_le 1⟩
  · dsimp only
    split
    · exact ⟨Nat.zero_le 2, Nat.zero_le 1⟩
    · split
      · exact ⟨Nat.zero_le 2, Nat.zero_le 1⟩
      · rename_i fs0 filename hrec
        split
        · exact ⟨Nat.zero_le 2, Nat.zero_le 1⟩
        · split
          · exact ⟨Nat.zero_le 2, Nat.zero_le 1⟩
          · split
            · rename_i vEvs fs1 e hup
              have hv := uploadVideoPhase_events env fs0 filename
              rw [hup] at hv
              exact ⟨hv.1, by rw [hv.2]; exact Nat.zero_le 1⟩
            · rename_i vEvs fs1 cloud hup
              have hv := uploadVideoPhase_events env fs0 filename
              rw [hup] at hv
              rcases hap : audioPhase env r (info0.getD synthInfo) fs1 vEvs filename
                with ⟨aEvs, fs2, aurl⟩
              have haud := audioPhase_events env r (info0.getD synthInfo) fs1 vEvs filename
              rw [hap] at haud
              dsimp only at hv haud ⊢
              split
              · rcases hrt : runThumbs env fs2 (vEvs ++ aEvs)
                  ((info0.getD synthInfo).thumbnails.getD []) with ⟨fs3, tEvs, trs⟩
                have hth := runThumbs_events env ((info0.getD synthInfo).thumbnails.getD [])
                  fs2 (vEvs ++ aEvs)
                rw [hrt] at hth
                dsimp only at hth ⊢
                constructor
                · simp only [List.filter_append, List.length_append, haud.2, hth.1,
                    List.length_nil]
                  omega
                · simp only [List.filter_append, List.length_append, hv.2, hth.2,
                    List.length_nil]
                  omega
              · constructor
                · simp only [List.filter_append, List.length_append, haud.2,
                    List.filter_nil, List.length_nil]
                  omega
                · simp only [List.filter_append, List.length_append, hv.2,
                    List.filter_nil, List.length_nil]
                  omega

/-! ## Claims C7 and C8 -/

/-- C7, counterexample: a job whose audio upload fails issues exactly ONE
upload call for the audio artifact and never retries it — the retry-once
logic exists only for the video artifact — refuting the claim that every
finalized artifact is retried exactly once after a failure. -/
theorem c7_counterexample :
    (download_media { media_url := "u", audio := some { extract := some true } }
      { testEnv with
          filesAfter3 := [{ name := "abc.mp4", size := 100, isFile := true },
                          { name := "abc.mp3", size := 50, isFile := true }],
          uploadOutcome := fun p _ =>
            if strEndsWith p ".mp3" then Except.error "storage down"
            else Except.ok ("https://cdn" ++ p) }).2.1
      = [Ev.up Role.video "/tmp/workdir/abc.mp4" true, Ev.del "/tmp/workdir/abc.mp4",
         Ev.up Role.audio "/tmp/workdir/abc.mp3" false] := by
  decide

/-- C7, amended: the video artifact receives at most two upload calls (one
attempt plus at most one retry); the audio artifact receives at most ONE
upload call — its failure is swallowed with no retry.  In particular no
artifact ever gets more than two upload calls. -/
theorem c7_upload_attempts (r : Request) (env : Env) :
    (((download_media r env).2.1).filter (isUpRole Role.video)).length ≤ 2 ∧
    (((download_media r env).2.1).filter (isUpRole Role.audio)).length ≤ 1 := by
  unfold download_media
  rcases hp : env.probe with e | pi
  · exact ⟨Nat.zero_le 2, Nat.zero_le 1⟩
  · dsimp only
    rcases hrt : runDownloadTiers env with ⟨tr, out⟩
    cases out with
    | fellThrough => exact ⟨Nat.zero_le 2, Nat.zero_le 1⟩
    | raised e => exact ⟨Nat.zero_le 2, Nat.zero_le 1⟩
    | proceed info files =>
      dsimp only
      have hb := processArtifacts_upload_bound env r (resolveOpts r pi) info files
      rcases hpa : processArtifacts env r (resolveOpts r pi) info files with ⟨evs, res⟩
      rw [hpa] at hb
      cases res with
      | ok resp => exact hb
      | error e => exact hb

/-! ## Deletion-discipline lemmas (claim C8) -/

theorem delOkStep_to_up (x : Ev) (ro : Role) (p : String) (ok : Bool) :
    delOkStep x (Ev.up ro p ok) = true := by
  cases x with
  | up ro2 q ok2 => cases ok2 <;> rfl
  | del q => rfl

theorem chain'_append_noLead (a b : List Ev)
    (ha : List.Chain' (fun x y => delOkStep x y = true) a)
    (hb : List.Chain' (fun x y => delOkStep x y = true) b)
    (hnb : noLeadDel b = true) :
    List.Chain' (fun x y => delOkStep x y = true) (a ++ b) := by
  rw [List.chain'_append]
  refine ⟨ha, hb, ?_⟩
  intro x hx y hy
  cases b with
  | nil => simp at hy
  | cons e bs =>
    simp at hy
    subst hy
    cases e with
    | up ro p ok => exact delOkStep_to_up x ro p ok
    | del q => exact absurd hnb (by simp [noLeadDel])

theorem noLeadDel_append (a b : List Ev) (hna : noLeadDel a = true)
    (hnb : noLeadDel b = true) : noLeadDel (a ++ b) = true := by
  cases a with
  | nil => exact hnb
  | cons e as =>
    cases e with
    | up ro p ok => rfl
    | del q => exact absurd hna (by simp [noLeadDel])

theorem dfou_append (a b : List Ev) (ha : deletesFollowOwnUpload a)
    (hb : deletesFollowOwnUpload b) : deletesFollowOwnUpload (a ++ b) :=
  ⟨chain'_append_noLead a b ha.1 hb.1 hb.2, noLeadDel_append a b ha.2 hb.2⟩

theorem dfou_nil : deletesFollowOwnUpload [] := ⟨List.chain'_nil, rfl⟩

theorem dfou_up_del (ro : Role) (p : String) :
    deletesFollowOwnUpload [Ev.up ro p true, Ev.del p] := by
  constructor
  · simp [List.chain'_cons, delOkStep]
  · rfl

theorem dfou_single_up (ro : Role) (p : String) (ok : Bool) :
    deletesFollowOwnUpload [Ev.up ro p ok] :=
  ⟨List.chain'_singleton _, rfl⟩

theorem dfou_two_fails (ro : Role) (p : String) :
    deletesFollowOwnUpload [Ev.up ro p false, Ev.up ro p false] := by
  constructor
  · simp [List.chain'_cons, delOkStep]
  · rfl

theorem dfou_fail_then_updel (ro : Role) (p : String) :
    deletesFollowOwnUpload [Ev.up ro p false, Ev.up ro p true, Ev.del p] := by
  constructor
  · simp [List.chain'_cons, delOkStep]
  · rfl

theorem uploadVideoPhase_dfou (env : Env) (fs : List FileRec) (f : String) :
    deletesFollowOwnUpload (uploadVideoPhase env fs f).1 := by
  unfold uploadVideoPhase
  split
  · exact dfou_nil
  · split
    · exact dfou_up_del _ _
    · split
      · split
        · exact dfou_fail_then_updel _ _
        · exact dfou_two_fails _ _
      · exact dfou_single_up _ _ _

theorem audioPhase_dfou (env : Env) (r : Request) (info : MediaInfo) (fs : List FileRec)
    (prior : List Ev) (f : String) :
    deletesFollowOwnUpload (audioPhase env r info fs prior f).1 := by
  unfold audioPhase
  split
  · dsimp only
    split
    · exact dfou_nil
    · split
      · exact dfou_up_del _ _
      · exact dfou_single_up _ _ _
  · exact dfou_nil

theorem runThumb_dfou (env : Env) (fs : List FileRec) (prior : List Ev) (t : ThumbInfo) :
    deletesFollowOwnUpload (runThumb env fs prior t).2.1 := by
  unfold runThumb
  split
  · split
    · exact dfou_nil
    · dsimp only
      split
      · exact dfou_single_up _ _ _
      · exact dfou_up_del _ _
  · exact dfou_nil

theorem runThumbs_dfou (env : Env) (ts : List ThumbInfo) :
    ∀ (fs : List FileRec) (prior : List Ev),
      deletesFollowOwnUpload (runThumbs env fs prior ts).2.1 := by
  induction ts with
  | nil => exact fun fs prior => dfou_nil
  | cons t ts ih =>
    intro fs prior
    simp only [runThumbs]
    rcases hT : runThumb env fs prior t with ⟨fs1, evs1, tr1⟩
    rcases hTs : runThumbs env fs1 (prior ++ evs1) ts with ⟨fs2, evs2, trs⟩
    have h1 := runThumb_dfou env fs prior t
    rw [hT] at h1
    have h2 := ih fs1 (prior ++ evs1)
    rw [hTs] at h2
    exact dfou_append _ _ h1 h2

theorem processArtifacts_dfou (env : Env) (r : Request) (opts : YdlOpts)
    (info0 : Option MediaInfo) (files : List FileRec) :
    deletesFollowOwnUpload (processArtifacts env r opts info0 files).1 := by
  unfold processArtifacts
  split
  · exact dfou_nil
  · dsimp only
    split
    · exact dfou_nil
    · split
      · exact dfou_nil
      · rename_i fs0 filename hrec
        split
        · exact dfou_nil
        · split
          · exact dfou_nil
          · split
            · rename_i vEvs fs1 e hup
              have hv := uploadVideoPhase_dfou env fs0 filename
              rw [hup] at hv
              exact hv
            · rename_i vEvs fs1 cloud hup
              have hv := uploadVideoPhase_dfou env fs0 filename
              rw [hup] at hv
              rcases hap : audioPhase env r (info0.getD synthInfo) fs1 vEvs filename
                with ⟨aEvs, fs2, aurl⟩
              have haud := audioPhase_dfou env r (info0.getD synthInfo) fs1 vEvs filename
              rw [hap] at haud
              dsimp only at hv haud ⊢
              split
              · rcases hrt : runThumbs env fs2 (vEvs ++ aEvs)
                  ((info0.getD synthInfo).thumbnails.getD []) with ⟨fs3, tEvs, trs⟩
                have hth := runThumbs_dfou env ((info0.getD synthInfo).thumbnails.getD [])
                  fs2 (vEvs ++ aEvs)
                rw [hrt] at hth
                dsimp only at hth ⊢
                exact dfou_append _ _ (dfou_append _ _ hv haud) hth
              · exact dfou_append _ _ (dfou_append _ _ hv haud) dfou_nil

/-- C8: no artifact file is deleted before its own upload attempt completes —
in the emitted event sequence, every deletion comes immediately after a
successful upload of the very same path (the video after its first or retried
upload, the audio after its single upload, each thumbnail after its upload),
and an artifact whose upload failed is never deleted, so it is left for the
working-directory cleanup. -/
theorem c8_deletes_follow_own_upload (r : Request) (env : Env) :
    deletesFollowOwnUpload (download_media r env).2.1 := by
  unfold download_media
  rcases hp : env.probe with e | pi
  · exact dfou_nil
  · dsimp only
    rcases hrt : runDownloadTiers env with ⟨tr, out⟩
    cases out with
    | fellThrough => exact dfou_nil
    | raised e => exact dfou_nil
    | proceed info files =>
      dsimp only
      have h := processArtifacts_dfou env r (resolveOpts r pi) info files
      rcases hpa : processArtifacts env r (resolveOpts r pi) info files with ⟨evs, res⟩
      rw [hpa] at h
      cases res with
      | ok resp => exact h
      | error e => exact h

end MediaDownload
